import Mathlib

/-!
Shallow embedding of the grid-challenge repository: the coordinate
transforms, snapping and clamping, collision resolution, layout update
handlers and undo/redo history, together with theorems settling the
specification claims.  JavaScript numbers are modelled as rationals (ℚ),
`Math.round` as `jsRound` (round half toward positive infinity), and grid
coordinates as integers (ℤ).
-/

namespace GridSpec

/-- JavaScript `Math.round`: rounds half toward positive infinity. -/
def jsRound (q : ℚ) : ℤ := ⌊q + 1/2⌋

theorem jsRound_intCast (n : ℤ) : jsRound (n : ℚ) = n := by
  unfold jsRound
  rw [Int.floor_int_add]
  norm_num

theorem jsRound_int_sub_eps (n : ℤ) (e : ℚ) (h0 : 0 < e) (h1 : e ≤ 1/2) :
    jsRound ((n : ℚ) - e) = n := by
  unfold jsRound
  have heq : (n : ℚ) - e + 1/2 = (n : ℚ) + (1/2 - e) := by ring
  rw [heq, Int.floor_int_add]
  have hz : ⌊(1/2 - e : ℚ)⌋ = 0 := by
    rw [Int.floor_eq_zero_iff]
    constructor
    · linarith
    · linarith
  omega

/-- The width of an `n`-span box, divided by one cell-plus-gap stride,
falls short of `n` by exactly `gap / (cell + gap)`. -/
theorem span_div_eq (n : ℤ) (cell gap : ℚ) (hg : 0 < gap) (hc : 0 < cell) :
    ((n : ℚ) * cell + ((n : ℚ) - 1) * gap) / (cell + gap)
      = (n : ℚ) - gap / (cell + gap) := by
  have hne : cell + gap ≠ 0 := ne_of_gt (by linarith)
  field_simp
  ring

/-- Rounding the span formula recovers the span whenever the gap is at most
the cell extent. -/
theorem jsRound_span (n : ℤ) (cell gap : ℚ) (hg : 0 < gap) (hcg : gap ≤ cell) :
    jsRound (((n : ℚ) * cell + ((n : ℚ) - 1) * gap) / (cell + gap)) = n := by
  have hc : 0 < cell := lt_of_lt_of_le hg hcg
  rw [span_div_eq n cell gap hg hc]
  apply jsRound_int_sub_eps
  · positivity
  · rw [div_le_iff₀ (by linarith)]
    linarith

/-- Rounding an exact multiple of the stride recovers the multiplier. -/
theorem jsRound_stride (n : ℤ) (stride : ℚ) (hs : stride ≠ 0) :
    jsRound ((n : ℚ) * stride / stride) = n := by
  rw [mul_div_cancel_right₀ _ hs, jsRound_intCast]

namespace Snapping

/-! Embedding of `src/app/grid/snapping.ts` together with the constants of
`src/app/grid/useGridMath.ts` (`ROW_HEIGHT = 60`, `GAP = 16`,
`GRID_COLUMNS = 10`) and the types of `src/app/grid/types.ts`. -/

def GRID_COLUMNS : ℤ := 10

def ROW_HEIGHT : ℚ := 60

def GAP : ℚ := 16

/-- `GridMath` from `src/app/grid/types.ts`. -/
structure GridMath where
  cellWidth : ℚ
  rowHeight : ℚ
  gap : ℚ
  gridWidth : ℚ
deriving DecidableEq, Repr

/-- The grid-coordinate fields of `Box` from `src/app/grid/types.ts`. -/
structure GridRect where
  col : ℤ
  row : ℤ
  colSpan : ℤ
  rowSpan : ℤ
deriving DecidableEq, Repr

/-- A pixel rectangle as returned by `gridToPixel`. -/
structure PixelRect where
  left : ℚ
  top : ℚ
  width : ℚ
  height : ℚ
deriving DecidableEq, Repr

/-- `pixelToGrid` from `src/app/grid/snapping.ts`: snapping formulas
followed by the boundary clamps, in source order. -/
def pixelToGrid (x y width height : ℚ) (gridMath : GridMath) : GridRect :=
  let cellWidth := gridMath.cellWidth
  let rowHeight := gridMath.rowHeight
  let gap := gridMath.gap
  let col0 := jsRound (x / (cellWidth + gap)) + 1
  let row0 := jsRound (y / (rowHeight + gap)) + 1
  let colSpan0 := max 1 (jsRound (width / (cellWidth + gap)))
  let rowSpan0 := max 1 (jsRound (height / (rowHeight + gap)))
  let col1 := max 1 col0
  let colSpan1 := if col1 + colSpan0 > GRID_COLUMNS + 1
    then GRID_COLUMNS + 1 - col1 else colSpan0
  let row1 := max 1 row0
  { col := col1, row := row1,
    colSpan := max 1 colSpan1, rowSpan := max 1 rowSpan0 }

/-- `gridToPixel` from `src/app/grid/snapping.ts`. -/
def gridToPixel (box : GridRect) (gridMath : GridMath) : PixelRect :=
  let cellWidth := gridMath.cellWidth
  let rowHeight := gridMath.rowHeight
  let gap := gridMath.gap
  { left := ((box.col : ℚ) - 1) * (cellWidth + gap),
    top := ((box.row : ℚ) - 1) * (rowHeight + gap),
    width := (box.colSpan : ℚ) * cellWidth + ((box.colSpan : ℚ) - 1) * gap,
    height := (box.rowSpan : ℚ) * rowHeight + ((box.rowSpan : ℚ) - 1) * gap }

/-- Converting a box to pixels and snapping the pixels back to the grid. -/
def roundTrip (r : GridRect) (m : GridMath) : GridRect :=
  let p := gridToPixel r m
  pixelToGrid p.left p.top p.width p.height m

/-- The Box invariants of spec §3 for a grid rectangle. -/
def validRect (r : GridRect) : Prop :=
  1 ≤ r.col ∧ 1 ≤ r.row ∧ 1 ≤ r.colSpan ∧ 1 ≤ r.rowSpan ∧
    r.col + r.colSpan - 1 ≤ GRID_COLUMNS

instance (r : GridRect) : Decidable (validRect r) := by
  unfold validRect
  infer_instance

end Snapping

namespace UtilsSnapping

/-! Embedding of `src/app/grid/utils/snapping.ts` with the constants of
`src/app/grid/utils/gridMath.ts` (`GRID_COLUMNS = 10`, `GRID_GAP = 16`,
`ROW_HEIGHT = 80`). -/

def GRID_COLUMNS : ℤ := 10

def GRID_GAP : ℚ := 16

def ROW_HEIGHT : ℚ := 80

/-- `snapToGrid` from `src/app/grid/utils/snapping.ts`. -/
def snapToGrid (x y width height cellWidth : ℚ) : Snapping.GridRect :=
  let col := max 1 (jsRound (x / (cellWidth + GRID_GAP)) + 1)
  let row := max 1 (jsRound (y / (ROW_HEIGHT + GRID_GAP)) + 1)
  let colSpan := max 1 (jsRound (width / (cellWidth + GRID_GAP)))
  let rowSpan := max 1 (jsRound (height / (ROW_HEIGHT + GRID_GAP)))
  let maxColSpan := GRID_COLUMNS - col + 1
  let colSpan1 := min colSpan maxColSpan
  { col := min col GRID_COLUMNS, row := row,
    colSpan := max 1 colSpan1, rowSpan := max 1 rowSpan }

/-- `clampToGrid` from `src/app/grid/utils/snapping.ts`, with the three
sequential reassignments made explicit. -/
def clampToGrid (col row colSpan rowSpan : ℤ) : Snapping.GridRect :=
  let col1 := max 1 col
  let row1 := max 1 row
  let colSpan1 := max 1 colSpan
  let rowSpan1 := max 1 rowSpan
  let colSpan2 := if col1 + colSpan1 - 1 > GRID_COLUMNS
    then GRID_COLUMNS - col1 + 1 else colSpan1
  let col2 := if col1 > GRID_COLUMNS then GRID_COLUMNS else col1
  let colSpan3 := if col1 > GRID_COLUMNS then 1 else colSpan2
  { col := col2, row := row1, colSpan := colSpan3, rowSpan := rowSpan1 }

/-- `isWithinBounds` from `src/app/grid/utils/snapping.ts`. -/
def isWithinBounds (col row colSpan rowSpan : ℤ) : Bool :=
  decide (col ≥ 1 ∧ row ≥ 1 ∧ col + colSpan - 1 ≤ GRID_COLUMNS ∧
    colSpan > 0 ∧ rowSpan > 0)

end UtilsSnapping

namespace GridUtils

/-! Embedding of `src/app/lib/gridUtils.ts`. -/

def GRID_COLUMNS : ℤ := 10

def CELL_SIZE : ℚ := 80

/-- `GridPosition` from `src/app/lib/gridUtils.ts`. -/
structure GridPosition where
  colStart : ℤ
  colEnd : ℤ
  rowStart : ℤ
  rowEnd : ℤ
deriving DecidableEq, Repr

/-- `BoxPosition` from `src/app/lib/gridUtils.ts`. -/
structure BoxPosition where
  x : ℚ
  y : ℚ
  width : ℚ
  height : ℚ
deriving DecidableEq, Repr

/-- The `{width, height}` pair returned by `constrainToGrid`. -/
structure Dimensions where
  width : ℚ
  height : ℚ
deriving DecidableEq, Repr

/-- `pixelToGrid` from `src/app/lib/gridUtils.ts` (the start/end based
variant). -/
def pixelToGrid (x y width height : ℚ) : GridPosition :=
  let colStart := max 1 (jsRound (x / CELL_SIZE) + 1)
  let colEnd := min (GRID_COLUMNS + 1)
    (colStart + max 1 (jsRound (width / CELL_SIZE)))
  let rowStart := max 1 (jsRound (y / CELL_SIZE) + 1)
  let rowEnd := rowStart + max 1 (jsRound (height / CELL_SIZE))
  { colStart := max 1 colStart, colEnd := min (GRID_COLUMNS + 1) colEnd,
    rowStart := max 1 rowStart, rowEnd := rowEnd }

/-- `gridToPixel` from `src/app/lib/gridUtils.ts`. -/
def gridToPixel (gridPos : GridPosition) : BoxPosition :=
  { x := ((gridPos.colStart : ℚ) - 1) * CELL_SIZE,
    y := ((gridPos.rowStart : ℚ) - 1) * CELL_SIZE,
    width := ((gridPos.colEnd : ℚ) - (gridPos.colStart : ℚ)) * CELL_SIZE,
    height := ((gridPos.rowEnd : ℚ) - (gridPos.rowStart : ℚ)) * CELL_SIZE }

/-- `doGridPositionsOverlap` from `src/app/lib/gridUtils.ts`. -/
def doGridPositionsOverlap (pos1 pos2 : GridPosition) : Bool :=
  decide (pos1.colStart < pos2.colEnd ∧ pos1.colEnd > pos2.colStart ∧
    pos1.rowStart < pos2.rowEnd ∧ pos1.rowEnd > pos2.rowStart)

/-- `constrainToGrid` from `src/app/lib/gridUtils.ts`. -/
def constrainToGrid (width height : ℚ) : Dimensions :=
  let minSize := CELL_SIZE
  let maxWidth := (GRID_COLUMNS : ℚ) * CELL_SIZE
  let maxHeight := 5 * CELL_SIZE
  { width := max minSize (min maxWidth ((jsRound (width / CELL_SIZE) : ℚ) * CELL_SIZE)),
    height := max minSize (min maxHeight ((jsRound (height / CELL_SIZE) : ℚ) * CELL_SIZE)) }

/-- Spec §4.3's span-based grid rectangle read as a start/end rectangle:
`end = start + span`. -/
def toGridPosition (r : Snapping.GridRect) : GridPosition :=
  { colStart := r.col, colEnd := r.col + r.colSpan,
    rowStart := r.row, rowEnd := r.row + r.rowSpan }

end GridUtils

namespace GridSystem

/-! Embedding of the collision logic of `src/app/components/GridSystem.tsx`
(`checkCollision` and the resolution loop inside `handleBoxUpdate`). -/

/-- The fields of the `Box` of `src/app/components/GridBox.tsx` that the
collision logic reads. -/
structure CBox where
  id : String
  gridPosition : GridUtils.GridPosition
deriving DecidableEq, Repr

/-- `checkCollision` from `src/app/components/GridSystem.tsx`: some other,
non-selected box overlaps the proposed position. -/
def checkCollision (boxes : List CBox) (selectedBoxIds : List String)
    (boxId : String) (newGridPos : GridUtils.GridPosition) : Bool :=
  boxes.any fun box =>
    box.id != boxId && !(selectedBoxIds.contains box.id) &&
      GridUtils.doGridPositionsOverlap box.gridPosition newGridPos

/-- A grid position shifted down by `k` rows. -/
def shiftRows (p : GridUtils.GridPosition) (k : ℕ) : GridUtils.GridPosition :=
  { p with
    rowStart := p.rowStart + k
    rowEnd := p.rowEnd + k }

/-- The `while (checkCollision(id, newPos) && attempts < 100)` loop of
`handleBoxUpdate`, with fuel making the recursion structural; called with
fuel 100 it performs exactly the loop's iterations (the `attempts < 100`
guard stops it first). Returns the final `newPos` and `attempts`. -/
def resolveLoop (coll : GridUtils.GridPosition → Bool) (fuel : ℕ)
    (newPos : GridUtils.GridPosition) (attempts : ℕ) :
    GridUtils.GridPosition × ℕ :=
  match fuel with
  | 0 => (newPos, attempts)
  | Nat.succ f =>
    if coll newPos = true ∧ attempts < 100 then
      resolveLoop coll f
        { newPos with
          rowStart := newPos.rowStart + 1
          rowEnd := newPos.rowEnd + 1 }
        (attempts + 1)
    else (newPos, attempts)

/-- `handleBoxUpdate` from `src/app/components/GridSystem.tsx`, modelled as
the grid position it commits through `onBoxUpdate` (`none` when the box is
unknown and resolution failed, in which case `onBoxUpdate` is not called). -/
def handleBoxUpdate (boxes : List CBox) (selectedBoxIds : List String)
    (id : String) (gridPosition : GridUtils.GridPosition)
    (absolutePosition : Option GridUtils.BoxPosition) :
    Option GridUtils.GridPosition :=
  if absolutePosition.isNone
      && checkCollision boxes selectedBoxIds id gridPosition then
    let r := resolveLoop (checkCollision boxes selectedBoxIds id) 100
      gridPosition 0
    if r.2 < 100 then some r.1
    else (boxes.find? fun b => b.id == id).map CBox.gridPosition
  else some gridPosition

theorem shiftRows_zero (p : GridUtils.GridPosition) : shiftRows p 0 = p := by
  simp [shiftRows]

theorem shiftRows_one (p : GridUtils.GridPosition) :
    shiftRows p 1 = { p with
      rowStart := p.rowStart + 1
      rowEnd := p.rowEnd + 1 } := by
  simp [shiftRows]

theorem shiftRows_shiftRows (p : GridUtils.GridPosition) (k : ℕ) :
    shiftRows (shiftRows p 1) k = shiftRows p (k + 1) := by
  simp only [shiftRows]
  congr 1 <;> push_cast <;> ring

/-- Characterization of the resolution loop: if collisions persist for the
first `k` shifts and the `k`-th shift is free (or the attempt budget is
exactly spent there), the loop stops at the `k`-th shift having used `k`
attempts. -/
theorem resolveLoop_eq (coll : GridUtils.GridPosition → Bool) (k : ℕ) :
    ∀ (p : GridUtils.GridPosition) (a fuel : ℕ),
    (∀ j, j < k → coll (shiftRows p j) = true) →
    a + k ≤ 100 →
    (coll (shiftRows p k) = false ∨ a + k = 100) →
    k ≤ fuel →
    resolveLoop coll fuel p a = (shiftRows p k, a + k) := by
  induction k with
  | zero =>
    intro p a fuel _ _ hstop _
    rcases fuel with _ | f
    · simp [resolveLoop, shiftRows_zero]
    · simp only [resolveLoop]
      rw [if_neg]
      · simp [shiftRows_zero]
      · rcases hstop with h | h
        · rw [shiftRows_zero] at h
          simp [h]
        · omega
  | succ k ih =>
    intro p a fuel hall hle hstop hfuel
    rcases fuel with _ | f
    · omega
    · have hc : coll p = true := by
        have h0 := hall 0 (by omega)
        rwa [shiftRows_zero] at h0
      simp only [resolveLoop]
      rw [if_pos ⟨hc, by omega⟩]
      have hrec := ih (shiftRows p 1) (a + 1) f
        (fun j hj => by
          rw [shiftRows_shiftRows]
          exact hall (j + 1) (by omega))
        (by omega)
        (by
          rw [shiftRows_shiftRows]
          rcases hstop with h | h
          · exact Or.inl h
          · exact Or.inr (by omega))
        (by omega)
      rw [← shiftRows_one, hrec, shiftRows_shiftRows]
      have : a + 1 + k = a + (k + 1) := by omega
      rw [this]

end GridSystem

/-- C3 (confirmed): on the non-absolute path, `handleBoxUpdate` either
commits the candidate shifted down by the least number of row increments
(strictly fewer than the 100-attempt budget, columns untouched) that frees
it of every other non-selected box, or — when all 100 probes collide —
falls back to the acting box's stored position (committing nothing if the
id is unknown); and if every box carrying the acting id sits at a
collision-free stored position, the committed position is collision-free,
so no overlap among grid-anchored boxes is ever introduced. -/
theorem c3_collisionResolution (boxes : List GridSystem.CBox)
    (selectedBoxIds : List String) (id : String)
    (cand : GridUtils.GridPosition) :
    ((∃ k, k < 100 ∧
        (∀ j, j < k → GridSystem.checkCollision boxes selectedBoxIds id
          (GridSystem.shiftRows cand j) = true) ∧
        GridSystem.checkCollision boxes selectedBoxIds id
          (GridSystem.shiftRows cand k) = false ∧
        GridSystem.handleBoxUpdate boxes selectedBoxIds id cand none
          = some (GridSystem.shiftRows cand k) ∧
        (GridSystem.shiftRows cand k).colStart = cand.colStart ∧
        (GridSystem.shiftRows cand k).colEnd = cand.colEnd) ∨
      ((∀ k, k < 100 → GridSystem.checkCollision boxes selectedBoxIds id
          (GridSystem.shiftRows cand k) = true) ∧
        GridSystem.handleBoxUpdate boxes selectedBoxIds id cand none
          = (boxes.find? fun b => b.id == id).map GridSystem.CBox.gridPosition)) ∧
    (∀ p, GridSystem.handleBoxUpdate boxes selectedBoxIds id cand none
        = some p →
      GridSystem.checkCollision boxes selectedBoxIds id p = false ∨
      ∃ b, b ∈ boxes ∧ b.id = id ∧ p = b.gridPosition) ∧
    ((∀ b, b ∈ boxes → b.id = id →
        GridSystem.checkCollision boxes selectedBoxIds id b.gridPosition
          = false) →
      ∀ p, GridSystem.handleBoxUpdate boxes selectedBoxIds id cand none
          = some p →
        GridSystem.checkCollision boxes selectedBoxIds id p = false) := by
  set coll := GridSystem.checkCollision boxes selectedBoxIds id with hcoll
  have hmain : (∃ k, k < 100 ∧
      (∀ j, j < k → coll (GridSystem.shiftRows cand j) = true) ∧
      coll (GridSystem.shiftRows cand k) = false ∧
      GridSystem.handleBoxUpdate boxes selectedBoxIds id cand none
        = some (GridSystem.shiftRows cand k) ∧
      (GridSystem.shiftRows cand k).colStart = cand.colStart ∧
      (GridSystem.shiftRows cand k).colEnd = cand.colEnd) ∨
      ((∀ k, k < 100 → coll (GridSystem.shiftRows cand k) = true) ∧
      GridSystem.handleBoxUpdate boxes selectedBoxIds id cand none
        = (boxes.find? fun b => b.id == id).map GridSystem.CBox.gridPosition) := by
    by_cases hex : ∃ k, k < 100 ∧ coll (GridSystem.shiftRows cand k) = false
    · obtain ⟨k0, hk0, hP0⟩ := hex
      have hPex : ∃ k, coll (GridSystem.shiftRows cand k) = false := ⟨k0, hP0⟩
      left
      refine ⟨Nat.find hPex, ?_, ?_, Nat.find_spec hPex, ?_, ?_, ?_⟩
      · exact lt_of_le_of_lt (Nat.find_min' hPex hP0) hk0
      · intro j hj
        have := Nat.find_min hPex hj
        revert this
        cases coll (GridSystem.shiftRows cand j) <;> simp
      · by_cases hc0 : coll cand = true
        · have hkpos : 0 < Nat.find hPex := by
            rcases Nat.eq_zero_or_pos (Nat.find hPex) with h | h
            · exfalso
              have hspec := Nat.find_spec hPex
              rw [h, GridSystem.shiftRows_zero] at hspec
              rw [hspec] at hc0
              exact Bool.false_ne_true hc0
            · exact h
          unfold GridSystem.handleBoxUpdate
          rw [← hcoll]
          simp only [Option.isNone_none, Bool.true_and, hc0, if_true]
          have hloop := GridSystem.resolveLoop_eq coll (Nat.find hPex) cand 0 100
            (fun j hj => by
              have := Nat.find_min hPex hj
              revert this
              cases coll (GridSystem.shiftRows cand j) <;> simp)
            (by
              have := lt_of_le_of_lt (Nat.find_min' hPex hP0) hk0
              omega)
            (Or.inl (Nat.find_spec hPex))
            (by
              have := lt_of_le_of_lt (Nat.find_min' hPex hP0) hk0
              omega)
          rw [hloop]
          simp only
          rw [if_pos (by
            have := lt_of_le_of_lt (Nat.find_min' hPex hP0) hk0
            omega)]
        · have hk0eq : Nat.find hPex = 0 := by
            rw [Nat.find_eq_zero]
            rw [GridSystem.shiftRows_zero]
            revert hc0
            cases coll cand <;> simp
          rw [hk0eq]
          unfold GridSystem.handleBoxUpdate
          rw [← hcoll]
          have hc0' : coll cand = false := by
            revert hc0
            cases coll cand <;> simp
          simp [hc0', GridSystem.shiftRows_zero]
      · rfl
      · rfl
    · push_neg at hex
      have hall : ∀ k, k < 100 → coll (GridSystem.shiftRows cand k) = true := by
        intro k hk
        have := hex k hk
        revert this
        cases coll (GridSystem.shiftRows cand k) <;> simp
      right
      refine ⟨hall, ?_⟩
      have hc0 : coll cand = true := by
        have := hall 0 (by omega)
        rwa [GridSystem.shiftRows_zero] at this
      unfold GridSystem.handleBoxUpdate
      rw [← hcoll]
      simp only [Option.isNone_none, Bool.true_and, hc0, if_true]
      have hloop := GridSystem.resolveLoop_eq coll 100 cand 0 100 hall
        (by omega) (Or.inr (by omega)) (by omega)
      rw [hloop]
      simp
  have hsnd : ∀ p, GridSystem.handleBoxUpdate boxes selectedBoxIds id cand none
      = some p →
      coll p = false ∨ ∃ b, b ∈ boxes ∧ b.id = id ∧ p = b.gridPosition := by
    intro p hp
    rcases hmain with ⟨k, _, _, hfree, heq, _, _⟩ | ⟨_, heq⟩
    · rw [heq] at hp
      left
      rw [← Option.some_inj.mp hp]
      exact hfree
    · rw [heq] at hp
      rw [Option.map_eq_some'] at hp
      obtain ⟨b, hfind, hbp⟩ := hp
      right
      refine ⟨b, List.mem_of_find?_eq_some hfind, ?_, hbp.symm⟩
      have hbeq : (b.id == id) = true := by
        simpa using List.find?_some hfind
      exact eq_of_beq hbeq
  refine ⟨hmain, hsnd, ?_⟩
  intro hinv p hp
  rcases hsnd p hp with h | ⟨b, hmem, hid, hpb⟩
  · exact h
  · rw [hpb]
    exact hinv b hmem hid

/-- C3 (witness): a candidate overlapping one settled box is shifted down
one row, and the committed position is collision-free. -/
theorem c3_collisionResolution_witness :
    GridSystem.checkCollision [⟨"a", ⟨1, 3, 1, 2⟩⟩] [] "b" ⟨1, 3, 2, 3⟩
      = false :=
  (c3_collisionResolution [⟨"a", ⟨1, 3, 1, 2⟩⟩] [] "b" ⟨1, 3, 1, 2⟩).2.2
    (by decide) ⟨1, 3, 2, 3⟩ (by decide)

namespace Page

/-! Embedding of the layout handlers of `src/unnamed/part_002` (the main
page component): `handleAddBox`, `handleDragStop` and `handleImport`. -/

/-- `Box` from `src/app/grid/types.ts`. -/
structure Box where
  id : String
  col : ℤ
  row : ℤ
  colSpan : ℤ
  rowSpan : ℤ
deriving DecidableEq, Repr

/-- JavaScript `Math.max(...list)` for the nonempty lists produced in
`handleAddBox`. -/
def listMax : List ℤ → ℤ
  | [] => 0
  | [x] => x
  | x :: xs => max x (listMax xs)

/-- `handleAddBox` from `src/unnamed/part_002`: append a 2×1 box at
column 1, one row past the maximum occupied row. `newId` stands for
`String(nextId.current++)`. -/
def handleAddBox (boxes : List Box) (newId : String) : List Box :=
  let maxRow := if boxes.length > 0
    then listMax (boxes.map fun b => b.row + b.rowSpan - 1) else 0
  boxes ++ [{ id := newId
              col := 1
              row := maxRow + 1
              colSpan := 2
              rowSpan := 1 }]

/-- `handleDragStop` from `src/unnamed/part_002`: re-snap the dragged
box's position from the drop point and its own current spans. -/
def handleDragStop (boxes : List Box) (id : String) (x y : ℚ)
    (gridMath : Snapping.GridMath) : List Box :=
  boxes.map fun box =>
    if box.id == id then
      match boxes.find? fun b => b.id == id with
      | none => box
      | some _ =>
        let snapped := Snapping.pixelToGrid x y
          ((box.colSpan : ℚ) * gridMath.cellWidth
            + ((box.colSpan : ℚ) - 1) * gridMath.gap)
          ((box.rowSpan : ℚ) * gridMath.rowHeight
            + ((box.rowSpan : ℚ) - 1) * gridMath.gap)
          gridMath
        { box with
          col := snapped.col
          row := snapped.row
          colSpan := snapped.colSpan
          rowSpan := snapped.rowSpan }
    else box

/-- A parsed JSON value, as produced by `JSON.parse`. -/
inductive Json where
  | null
  | bool (b : Bool)
  | num (q : ℚ)
  | str (s : String)
  | arr (elems : List Json)
  | obj (fields : List (String × Json))

/-- The observable outcome of `handleImport`: the resulting boxes and
selection state, and whether the error alert was shown. -/
structure ImportOutcome where
  boxes : List Box
  selectedIds : List String
  errorReported : Bool
deriving Repr

/-- `handleImport` from `src/unnamed/part_002`: `payload = none` models
file text on which `JSON.parse` throws (caught, alert shown); otherwise
only `Array.isArray(imported)` triggers `setBoxes`; `decodeBox` stands for
the unchecked element cast. -/
def handleImport (boxes : List Box) (selectedIds : List String)
    (decodeBox : Json → Box) (payload : Option Json) : ImportOutcome :=
  match payload with
  | none => ⟨boxes, selectedIds, true⟩
  | some (Json.arr elems) => ⟨elems.map decodeBox, [], false⟩
  | some _ => ⟨boxes, selectedIds, false⟩

theorem listMax_mem : ∀ l : List ℤ, l ≠ [] → listMax l ∈ l := by
  intro l
  induction l with
  | nil => simp
  | cons x xs ih =>
    intro _
    cases xs with
    | nil => simp [listMax]
    | cons y ys =>
      simp only [listMax]
      rcases max_cases x (listMax (y :: ys)) with ⟨h, _⟩ | ⟨h, _⟩
      · rw [h]
        exact List.mem_cons_self _ _
      · rw [h]
        exact List.mem_cons_of_mem _ (ih (by simp))

theorem le_listMax : ∀ l : List ℤ, ∀ x ∈ l, x ≤ listMax l := by
  intro l
  induction l with
  | nil => simp
  | cons x xs ih =>
    intro z hz
    cases xs with
    | nil =>
      simp only [List.mem_singleton] at hz
      simp [listMax, hz]
    | cons y ys =>
      simp only [listMax]
      rcases List.mem_cons.mp hz with h | h
      · rw [h]
        exact le_max_left _ _
      · exact le_trans (ih z h) (le_max_right _ _)

end Page

namespace HistoryPage

/-! Embedding of the history management of the page component embedded in
`src/README.md` (`saveToHistory`, `handleUndo`, `handleRedo`). -/

/-- `HistoryState` snapshot: deep copies of the boxes and the selection. -/
structure HistoryState where
  boxes : List Page.Box
  selectedBoxIds : List String
deriving DecidableEq, Repr

/-- The page state the history logic touches: current boxes and selection,
the history array, and the cursor `historyIndex` (initially `-1`). -/
structure AppState where
  boxes : List Page.Box
  selectedBoxIds : List String
  history : List HistoryState
  historyIndex : ℤ
deriving DecidableEq, Repr

/-- `saveToHistory`: truncate past the cursor
(`history.slice(0, historyIndex + 1)`), push the snapshot, move the cursor
to the new last index. -/
def saveToHistory (s : AppState) (newBoxes : List Page.Box)
    (newSelectedIds : List String) : AppState :=
  let newHistory := s.history.take (s.historyIndex + 1).toNat
    ++ [⟨newBoxes, newSelectedIds⟩]
  { s with
    history := newHistory
    historyIndex := (newHistory.length : ℤ) - 1 }

/-- `handleUndo`: if `historyIndex > 0`, restore the previous snapshot and
decrement the cursor; otherwise do nothing. -/
def handleUndo (s : AppState) : AppState :=
  if s.historyIndex > 0 then
    match s.history[(s.historyIndex - 1).toNat]? with
    | some prevState =>
      { s with
        boxes := prevState.boxes
        selectedBoxIds := prevState.selectedBoxIds
        historyIndex := s.historyIndex - 1 }
    | none => s
  else s

/-- `handleRedo`: if `historyIndex < history.length - 1`, restore the next
snapshot and increment the cursor; otherwise do nothing. -/
def handleRedo (s : AppState) : AppState :=
  if s.historyIndex < (s.history.length : ℤ) - 1 then
    match s.history[(s.historyIndex + 1).toNat]? with
    | some nextState =>
      { s with
        boxes := nextState.boxes
        selectedBoxIds := nextState.selectedBoxIds
        historyIndex := s.historyIndex + 1 }
    | none => s
  else s

end HistoryPage

theorem jsRound_stride' (n : ℤ) (stride : ℚ) (hs : stride ≠ 0) :
    jsRound (((n : ℚ) - 1) * stride / stride) = n - 1 := by
  have h : ((n : ℚ) - 1) = ((n - 1 : ℤ) : ℚ) := by push_cast; ring
  rw [h, jsRound_stride _ _ hs]

/-- C1 (counterexample): the rectangle `⟨1,1,2,1⟩` is valid and the grid
math `cellWidth = 1, rowHeight = 60, gap = 16` has all three measurements
positive, yet `pixelToGrid ∘ gridToPixel` shrinks `colSpan` from 2 to 1:
the round-trip is not the identity for every positive `gridMath`. -/
theorem c1_roundTrip_counterexample :
    Snapping.validRect ⟨1, 1, 2, 1⟩ ∧
    Snapping.roundTrip ⟨1, 1, 2, 1⟩ ⟨1, 60, 16, 896⟩ ≠ ⟨1, 1, 2, 1⟩ := by
  constructor
  · decide
  · have h : Snapping.roundTrip ⟨1, 1, 2, 1⟩ ⟨1, 60, 16, 896⟩
        = ⟨1, 1, 1, 1⟩ := by
      norm_num [Snapping.roundTrip, Snapping.pixelToGrid,
        Snapping.gridToPixel, Snapping.GRID_COLUMNS, jsRound]
    rw [h]
    decide

/-- C1 (amended): for every valid grid rectangle, `pixelToGrid` inverts
`gridToPixel` exactly whenever the gap is positive and is at most both the
cell width and the row height (as with the application's fixed
`rowHeight = 60`, `gap = 16` and any `cellWidth ≥ 16`); the claim's weaker
premise of mere positivity does not suffice. -/
theorem c1_roundTrip (r : Snapping.GridRect) (m : Snapping.GridMath)
    (hval : Snapping.validRect r) (hg : 0 < m.gap)
    (hgc : m.gap ≤ m.cellWidth) (hgr : m.gap ≤ m.rowHeight) :
    Snapping.roundTrip r m = r := by
  obtain ⟨col, row, cs, rs⟩ := r
  obtain ⟨h1, h2, h3, h4, h5⟩ := hval
  simp only [Snapping.GRID_COLUMNS] at h5
  have hstride1 : m.cellWidth + m.gap ≠ 0 := by
    have : 0 < m.cellWidth := lt_of_lt_of_le hg hgc
    positivity
  have hstride2 : m.rowHeight + m.gap ≠ 0 := by
    have : 0 < m.rowHeight := lt_of_lt_of_le hg hgr
    positivity
  simp only [Snapping.roundTrip, Snapping.gridToPixel, Snapping.pixelToGrid,
    Snapping.GRID_COLUMNS]
  rw [jsRound_stride' col _ hstride1, jsRound_stride' row _ hstride2,
    jsRound_span cs _ _ hg hgc, jsRound_span rs _ _ hg hgr]
  have e1 : col - 1 + 1 = col := by ring
  have e2 : row - 1 + 1 = row := by ring
  rw [e1, e2]
  simp only [max_eq_right h1, max_eq_right h2, max_eq_right h3,
    max_eq_right h4]
  rw [if_neg (by omega)]
  simp only [max_eq_right h3, max_eq_right h4]

/-- C1 (witness): the amended round-trip theorem applied at a concrete
valid rectangle and the application's default grid math. -/
theorem c1_roundTrip_witness :
    Snapping.roundTrip ⟨2, 3, 2, 2⟩ ⟨80, 60, 16, 896⟩ = ⟨2, 3, 2, 2⟩ :=
  c1_roundTrip ⟨2, 3, 2, 2⟩ ⟨80, 60, 16, 896⟩ (by decide) (by norm_num)
    (by norm_num) (by norm_num)

/-- C2 (counterexample): `pixelToGrid` from `src/app/grid/snapping.ts` is
not total for the Box invariants: a far-right input rectangle yields
`col = 105`, so `col + colSpan − 1 ≤ GRID_COLUMNS` fails. -/
theorem c2_snap_counterexample :
    ¬ Snapping.validRect (Snapping.pixelToGrid 9999 0 100 100 ⟨80, 60, 16, 896⟩) := by
  have h : Snapping.pixelToGrid 9999 0 100 100 ⟨80, 60, 16, 896⟩
      = ⟨105, 1, 1, 1⟩ := by
    norm_num [Snapping.pixelToGrid, Snapping.GRID_COLUMNS, jsRound]
  rw [h]
  decide

/-- C2 (amended): `snapToGrid` (`src/app/grid/utils/snapping.ts`) does
satisfy all Box invariants for every pixel rectangle, however invalid;
`pixelToGrid` (`src/app/grid/snapping.ts`) guarantees only the four lower
bounds, not the column upper bound. -/
theorem c2_snap_totality :
    (∀ x y w h cellWidth : ℚ, 0 < cellWidth →
      Snapping.validRect (UtilsSnapping.snapToGrid x y w h cellWidth)) ∧
    (∀ x y w h : ℚ, ∀ m : Snapping.GridMath,
      1 ≤ (Snapping.pixelToGrid x y w h m).col ∧
      1 ≤ (Snapping.pixelToGrid x y w h m).row ∧
      1 ≤ (Snapping.pixelToGrid x y w h m).colSpan ∧
      1 ≤ (Snapping.pixelToGrid x y w h m).rowSpan) := by
  constructor
  · intro x y w h cellWidth _
    simp only [UtilsSnapping.snapToGrid, UtilsSnapping.GRID_COLUMNS,
      Snapping.validRect, Snapping.GRID_COLUMNS]
    refine ⟨?_, ?_, ?_, ?_, ?_⟩ <;> omega
  · intro x y w h m
    simp only [Snapping.pixelToGrid, Snapping.GRID_COLUMNS]
    refine ⟨?_, ?_, ?_, ?_⟩ <;> omega

/-- C2 (witness): amended totality applied to a wildly invalid concrete
rectangle (negative origin, huge size). -/
theorem c2_snap_totality_witness :
    Snapping.validRect (UtilsSnapping.snapToGrid (-5000) (-5000) 99999 99999 80) :=
  c2_snap_totality.1 (-5000) (-5000) 99999 99999 80 (by norm_num)

/-- C4 (counterexample): snapping applies no upper bound of 5 to spans —
a 10000px tall rectangle snaps to `rowSpan = 132` — and the free-mode
resize constraint caps width at 10 cells (800px), not 5. -/
theorem c4_maxSize_counterexample :
    (Snapping.pixelToGrid 0 0 0 10000 ⟨80, 60, 16, 896⟩).rowSpan = 132 ∧
    (GridUtils.constrainToGrid 10000 10000).width = 800 := by
  constructor
  · norm_num [Snapping.pixelToGrid, Snapping.GRID_COLUMNS, jsRound]
  · norm_num [GridUtils.constrainToGrid, GridUtils.GRID_COLUMNS,
      GridUtils.CELL_SIZE, jsRound]

/-- C4 (amended): the snapping functions clamp `colSpan`/`rowSpan` only
from below at 1 (never at 5); the free-mode resize constraint
`constrainToGrid` clamps width into [1 cell, 10 cells] and height into
[1 cell, 5 cells] before returning. -/
theorem c4_sizeBounds :
    (∀ w h : ℚ,
      GridUtils.CELL_SIZE ≤ (GridUtils.constrainToGrid w h).width ∧
      (GridUtils.constrainToGrid w h).width
        ≤ (GridUtils.GRID_COLUMNS : ℚ) * GridUtils.CELL_SIZE ∧
      GridUtils.CELL_SIZE ≤ (GridUtils.constrainToGrid w h).height ∧
      (GridUtils.constrainToGrid w h).height ≤ 5 * GridUtils.CELL_SIZE) ∧
    (∀ x y w h : ℚ, ∀ m : Snapping.GridMath,
      1 ≤ (Snapping.pixelToGrid x y w h m).colSpan ∧
      1 ≤ (Snapping.pixelToGrid x y w h m).rowSpan) := by
  constructor
  · intro w h
    simp only [GridUtils.constrainToGrid, GridUtils.GRID_COLUMNS,
      GridUtils.CELL_SIZE]
    refine ⟨le_max_left _ _, ?_, le_max_left _ _, ?_⟩
    · exact max_le (by norm_num) (le_trans (min_le_left _ _) (by norm_num))
    · exact max_le (by norm_num) (min_le_left _ _)
  · intro x y w h m
    simp only [Snapping.pixelToGrid]
    exact ⟨le_max_left _ _, le_max_left _ _⟩

/-- C7 (confirmed): `doGridPositionsOverlap` is exactly the open-interval
axis-aligned test; boxes that merely touch along an edge do not overlap;
and read through `end = start + span` it is the spec's span-based test. -/
theorem c7_overlaps (a b : GridUtils.GridPosition)
    (r s : Snapping.GridRect) :
    (GridUtils.doGridPositionsOverlap a b = true ↔
      (a.colStart < b.colEnd ∧ a.colEnd > b.colStart ∧
       a.rowStart < b.rowEnd ∧ a.rowEnd > b.rowStart)) ∧
    (a.colEnd = b.colStart → GridUtils.doGridPositionsOverlap a b = false) ∧
    (a.rowEnd = b.rowStart → GridUtils.doGridPositionsOverlap a b = false) ∧
    (GridUtils.doGridPositionsOverlap (GridUtils.toGridPosition r)
        (GridUtils.toGridPosition s) = true ↔
      (r.col < s.col + s.colSpan ∧ s.col < r.col + r.colSpan ∧
       r.row < s.row + s.rowSpan ∧ s.row < r.row + r.rowSpan)) := by
  refine ⟨by simp [GridUtils.doGridPositionsOverlap], ?_, ?_, ?_⟩
  · intro h
    simp only [GridUtils.doGridPositionsOverlap, decide_eq_false_iff_not]
    omega
  · intro h
    simp only [GridUtils.doGridPositionsOverlap, decide_eq_false_iff_not]
    omega
  · simp only [GridUtils.doGridPositionsOverlap, GridUtils.toGridPosition,
      decide_eq_true_eq]

/-- C7 (witness): two concrete boxes sharing a vertical edge do not
overlap, by the touching-edge clause of the overlap theorem. -/
theorem c7_overlaps_witness :
    GridUtils.doGridPositionsOverlap ⟨1, 3, 1, 2⟩ ⟨3, 5, 1, 2⟩ = false :=
  (c7_overlaps ⟨1, 3, 1, 2⟩ ⟨3, 5, 1, 2⟩ ⟨1, 1, 1, 1⟩ ⟨1, 1, 1, 1⟩).2.1 rfl

/-- C9 (counterexample): `pixelToGrid` (`src/app/grid/snapping.ts`) does
not apply the degenerate-edge policy: a far-right rectangle snaps to
`col = 105 > GRID_COLUMNS`, which is not forced back to `GRID_COLUMNS`. -/
theorem c9_edgePolicy_counterexample :
    (Snapping.pixelToGrid 9999 0 30 30 ⟨80, 60, 16, 896⟩).col
        > Snapping.GRID_COLUMNS ∧
    (Snapping.pixelToGrid 9999 0 30 30 ⟨80, 60, 16, 896⟩).col
        ≠ Snapping.GRID_COLUMNS := by
  have h : Snapping.pixelToGrid 9999 0 30 30 ⟨80, 60, 16, 896⟩
      = ⟨105, 1, 1, 1⟩ := by
    norm_num [Snapping.pixelToGrid, Snapping.GRID_COLUMNS, jsRound]
  rw [h]
  decide

/-- C9 (amended): `clampToGrid` implements the degenerate-edge policy —
for `col > GRID_COLUMNS` it forces `col = GRID_COLUMNS, colSpan = 1` —
while `pixelToGrid` in the same situation keeps the out-of-range column
unchanged and only forces `colSpan = 1`. -/
theorem c9_edgePolicy :
    (∀ col row colSpan rowSpan : ℤ, col > UtilsSnapping.GRID_COLUMNS →
      (UtilsSnapping.clampToGrid col row colSpan rowSpan).col
          = UtilsSnapping.GRID_COLUMNS ∧
      (UtilsSnapping.clampToGrid col row colSpan rowSpan).colSpan = 1) ∧
    (∀ x y w h : ℚ, ∀ m : Snapping.GridMath,
      (Snapping.pixelToGrid x y w h m).col > Snapping.GRID_COLUMNS →
      (Snapping.pixelToGrid x y w h m).col
          = jsRound (x / (m.cellWidth + m.gap)) + 1 ∧
      (Snapping.pixelToGrid x y w h m).colSpan = 1) := by
  constructor
  · intro col row colSpan rowSpan hcol
    simp only [UtilsSnapping.clampToGrid, UtilsSnapping.GRID_COLUMNS] at *
    constructor
    · rw [if_pos (by omega)]
    · rw [if_pos (by omega)]
  · intro x y w h m
    simp only [Snapping.pixelToGrid, Snapping.GRID_COLUMNS]
    intro hcol
    constructor
    · omega
    · split_ifs with hc
      · omega
      · omega

/-- C9 (witness): the amended theorem at a concrete out-of-range column. -/
theorem c9_edgePolicy_witness :
    (UtilsSnapping.clampToGrid 15 2 3 2).col = UtilsSnapping.GRID_COLUMNS ∧
    (UtilsSnapping.clampToGrid 15 2 3 2).colSpan = 1 :=
  c9_edgePolicy.1 15 2 3 2 (by decide)

/-- C5 (counterexample): a well-formed payload whose top level is an
object containing a `boxes` array neither replaces the layout nor reports
an error — `handleImport` (the cited `src/unnamed/part_002` variant)
silently ignores everything that is not itself a top-level array. -/
theorem c5_import_counterexample :
    Page.handleImport [⟨"1", 1, 1, 2, 1⟩] ["1"] (fun _ => ⟨"x", 1, 1, 2, 1⟩)
      (some (Page.Json.obj [("boxes", Page.Json.arr [Page.Json.null])]))
      = ⟨[⟨"1", 1, 1, 2, 1⟩], ["1"], false⟩ := rfl

/-- C5 (amended): only a payload that is itself a top-level JSON array
replaces the Layout (with the decoded elements) and clears the Selection;
malformed JSON reports an error and leaves the state unchanged; every
other well-formed payload — including the `{boxes: [...]}` envelope — is
ignored silently, leaving the state unchanged with no error reported. -/
theorem c5_import (boxes : List Page.Box) (selectedIds : List String)
    (decodeBox : Page.Json → Page.Box) :
    (∀ elems, Page.handleImport boxes selectedIds decodeBox
        (some (Page.Json.arr elems)) = ⟨elems.map decodeBox, [], false⟩) ∧
    (Page.handleImport boxes selectedIds decodeBox none
        = ⟨boxes, selectedIds, true⟩) ∧
    (∀ j, (∀ elems, j ≠ Page.Json.arr elems) →
      Page.handleImport boxes selectedIds decodeBox (some j)
        = ⟨boxes, selectedIds, false⟩) := by
  refine ⟨fun elems => rfl, rfl, ?_⟩
  intro j hj
  cases j with
  | null => rfl
  | bool b => rfl
  | num q => rfl
  | str s => rfl
  | arr elems => exact absurd rfl (hj elems)
  | obj fields => rfl

/-- C5 (witness): the amended import theorem applied to a concrete
non-array payload. -/
theorem c5_import_witness :
    Page.handleImport [] [] (fun _ => ⟨"x", 1, 1, 2, 1⟩)
      (some (Page.Json.num 3)) = ⟨[], [], false⟩ :=
  (c5_import [] [] (fun _ => ⟨"x", 1, 1, 2, 1⟩)).2.2 (Page.Json.num 3)
    (fun _ h => Page.Json.noConfusion h)

/-- C8 (confirmed): `handleAddBox` appends exactly one new box with
`col = 1, colSpan = 2, rowSpan = 1` at row `M + 1`, where `M` is 0 on an
empty layout and otherwise the maximum of `row + rowSpan − 1` over the
existing boxes (attained by one of them); no existing box is modified. -/
theorem c8_handleAddBox (boxes : List Page.Box) (newId : String) :
    ∃ M : ℤ,
      Page.handleAddBox boxes newId = boxes ++ [⟨newId, 1, M + 1, 2, 1⟩] ∧
      (boxes = [] → M = 0) ∧
      (boxes ≠ [] →
        (∃ b, b ∈ boxes ∧ M = b.row + b.rowSpan - 1) ∧
        ∀ b, b ∈ boxes → b.row + b.rowSpan - 1 ≤ M) := by
  refine ⟨if boxes.length > 0
    then Page.listMax (boxes.map fun b => b.row + b.rowSpan - 1) else 0,
    ?_, ?_, ?_⟩
  · rfl
  · intro h
    simp [h]
  · intro h
    have hlen : boxes.length > 0 := List.length_pos.mpr h
    rw [if_pos hlen]
    constructor
    · have hmem := Page.listMax_mem (boxes.map fun b => b.row + b.rowSpan - 1)
        (by simpa using h)
      rw [List.mem_map] at hmem
      obtain ⟨b, hb, he⟩ := hmem
      exact ⟨b, hb, he.symm⟩
    · intro b hb
      exact Page.le_listMax _ _ (List.mem_map_of_mem _ hb)

/-- C8 (witness): on a layout whose maximum occupied row is 3 the new box
lands at `row = 4, col = 1, colSpan = 2, rowSpan = 1`, by the add
theorem. -/
theorem c8_handleAddBox_witness :
    Page.handleAddBox [⟨"1", 1, 1, 2, 1⟩, ⟨"2", 1, 2, 2, 2⟩] "3"
      = [⟨"1", 1, 1, 2, 1⟩, ⟨"2", 1, 2, 2, 2⟩, ⟨"3", 1, 4, 2, 1⟩] := by
  obtain ⟨M, heq, -, hne⟩ :=
    c8_handleAddBox [⟨"1", 1, 1, 2, 1⟩, ⟨"2", 1, 2, 2, 2⟩] "3"
  obtain ⟨⟨b, hb, hMb⟩, hub⟩ := hne (by decide)
  have h2 : ((⟨"2", 1, 2, 2, 2⟩ : Page.Box).row
      + (⟨"2", 1, 2, 2, 2⟩ : Page.Box).rowSpan - 1) ≤ M :=
    hub _ (by decide)
  have hM : M = 3 := by
    simp only [List.mem_cons, List.mem_singleton, List.not_mem_nil,
      or_false] at hb
    rcases hb with rfl | rfl <;> simp at hMb h2 ⊢ <;> omega
  rw [hM] at heq
  simpa using heq

/-- C6 (confirmed): history is linear — a push discards the redo branch,
so immediately after `saveToHistory` a redo is a no-op (hence redo cannot
be applied N times after a push that followed N undos); an undo from a
consistent state (cursor in range, current boxes and selection equal to
the snapshot at the cursor) followed by a redo restores the exact state;
and undo at the earliest entry and redo at the latest entry are no-ops. -/
theorem c6_historyLinearity :
    (∀ (s : HistoryPage.AppState) (bs : List Page.Box) (sel : List String),
      HistoryPage.handleRedo (HistoryPage.saveToHistory s bs sel)
        = HistoryPage.saveToHistory s bs sel) ∧
    (∀ s : HistoryPage.AppState, 0 < s.historyIndex →
      s.historyIndex < (s.history.length : ℤ) →
      s.history[s.historyIndex.toNat]? = some ⟨s.boxes, s.selectedBoxIds⟩ →
      HistoryPage.handleRedo (HistoryPage.handleUndo s) = s) ∧
    (∀ s : HistoryPage.AppState, s.historyIndex ≤ 0 →
      HistoryPage.handleUndo s = s) ∧
    (∀ s : HistoryPage.AppState,
      (s.history.length : ℤ) - 1 ≤ s.historyIndex →
      HistoryPage.handleRedo s = s) := by
  refine ⟨?_, ?_, ?_, ?_⟩
  · intro s bs sel
    simp only [HistoryPage.saveToHistory, HistoryPage.handleRedo]
    rw [if_neg (by omega)]
  · intro s h1 h2 h3
    have hlt : (s.historyIndex - 1).toNat < s.history.length := by omega
    simp only [HistoryPage.handleUndo]
    rw [if_pos h1, List.getElem?_eq_getElem hlt]
    simp only [HistoryPage.handleRedo]
    rw [if_pos (by omega)]
    have hidx : (s.historyIndex - 1 + 1).toNat = s.historyIndex.toNat := by
      omega
    simp only [hidx, h3]
    have hfin : s.historyIndex - 1 + 1 = s.historyIndex := by omega
    simp [hfin]
  · intro s h
    simp only [HistoryPage.handleUndo]
    rw [if_neg (by omega)]
  · intro s h
    simp only [HistoryPage.handleRedo]
    rw [if_neg (by omega)]

/-- C6 (witness): the history theorem at a concrete two-entry history with
the cursor on the last entry: undo followed by redo restores the state. -/
theorem c6_historyLinearity_witness :
    HistoryPage.handleRedo (HistoryPage.handleUndo
      ⟨[⟨"1", 1, 1, 2, 1⟩], [], [⟨[], []⟩, ⟨[⟨"1", 1, 1, 2, 1⟩], []⟩], 1⟩)
      = ⟨[⟨"1", 1, 1, 2, 1⟩], [], [⟨[], []⟩, ⟨[⟨"1", 1, 1, 2, 1⟩], []⟩], 1⟩ :=
  c6_historyLinearity.2.1
    ⟨[⟨"1", 1, 1, 2, 1⟩], [], [⟨[], []⟩, ⟨[⟨"1", 1, 1, 2, 1⟩], []⟩], 1⟩
    (by decide) (by decide) (by decide)

/-- C10 (counterexample): dropping a 2-wide box at `x = 960` (cellWidth 80,
gap 16, so snapped column 11) reduces its `colSpan` to 1, yet the result
has `col + colSpan = 12 > GRID_COLUMNS + 1`: the reduction does not always
establish `col + colSpan ≤ GRID_COLUMNS + 1` as the claim's exception
clause states. -/
theorem c10_dragStop_counterexample :
    Page.handleDragStop [⟨"1", 1, 1, 2, 1⟩] "1" 960 0 ⟨80, 60, 16, 896⟩
      = [⟨"1", 11, 1, 1, 1⟩] ∧
    (11 : ℤ) + 1 > Snapping.GRID_COLUMNS + 1 := by
  constructor
  · norm_num [Page.handleDragStop, List.find?, Snapping.pixelToGrid,
      Snapping.GRID_COLUMNS, jsRound]
  · decide

/-- C10 (amended): with the fixed constants `rowHeight = 60`, `gap = 16`
and any `cellWidth ≥ 16`, a drag-settle leaves every non-matching box
untouched, and the matching box keeps its `id` and `rowSpan`; its
`colSpan` is either unchanged or reduced to
`max 1 (GRID_COLUMNS + 1 − col)` (which is at most the original), the
clamp achieving `col + colSpan ≤ GRID_COLUMNS + 1` only when the new
column is within the grid. -/
theorem c10_handleDragStop (boxes : List Page.Box) (id : String)
    (x y cw gw : ℚ) (hcw : 16 ≤ cw)
    (hv : ∀ b, b ∈ boxes → 1 ≤ b.colSpan ∧ 1 ≤ b.rowSpan) :
    List.Forall₂ (fun b c : Page.Box =>
      (b.id ≠ id → c = b) ∧
      (b.id = id → c.id = b.id ∧ c.rowSpan = b.rowSpan ∧
        (c.colSpan = b.colSpan ∨
          (c.colSpan = max 1 (Snapping.GRID_COLUMNS + 1 - c.col) ∧
            c.colSpan ≤ b.colSpan))))
      boxes (Page.handleDragStop boxes id x y ⟨cw, 60, 16, gw⟩) := by
  unfold Page.handleDragStop
  rw [List.forall₂_map_right_iff, List.forall₂_same]
  intro b hb
  by_cases hid : b.id = id
  · have hbeq : (b.id == id) = true := by simp [hid]
    have hsome : (boxes.find? fun b0 => b0.id == id).isSome :=
      List.find?_isSome.mpr ⟨b, hb, hbeq⟩
    obtain ⟨a, ha⟩ := Option.isSome_iff_exists.mp hsome
    obtain ⟨hcs, hrs⟩ := hv b hb
    have hcspan : jsRound (((b.colSpan : ℚ) * cw
        + ((b.colSpan : ℚ) - 1) * 16) / (cw + 16)) = b.colSpan :=
      jsRound_span b.colSpan cw 16 (by norm_num) hcw
    have hrspan : jsRound (((b.rowSpan : ℚ) * 60
        + ((b.rowSpan : ℚ) - 1) * 16) / (60 + 16)) = b.rowSpan :=
      jsRound_span b.rowSpan 60 16 (by norm_num) (by norm_num)
    simp only [hbeq, if_true, ha]
    refine ⟨fun hne => absurd hid hne, fun _ => ⟨by trivial, ?_, ?_⟩⟩
    · simp only [Snapping.pixelToGrid, hrspan]
      omega
    · simp only [Snapping.pixelToGrid, Snapping.GRID_COLUMNS, hcspan]
      split_ifs with hcond
      · right
        exact ⟨rfl, by omega⟩
      · left
        omega
  · have hbeq : (b.id == id) = false := by
      simp [hid]
    simp only [hbeq, Bool.false_eq_true, if_false]
    exact ⟨fun _ => by trivial, fun h => absurd h hid⟩

/-- C10 (witness): a drag-settle addressed to an id not present in the
layout leaves the single existing box untouched, by the frame clause of
the drag theorem. -/
theorem c10_handleDragStop_witness :
    Page.handleDragStop [⟨"1", 1, 1, 2, 1⟩] "2" 5 5 ⟨80, 60, 16, 896⟩
      = [⟨"1", 1, 1, 2, 1⟩] := by
  have h := c10_handleDragStop [⟨"1", 1, 1, 2, 1⟩] "2" 5 5 80 896
    (by norm_num) (by decide)
  generalize hgen : Page.handleDragStop [⟨"1", 1, 1, 2, 1⟩] "2" 5 5
    ⟨80, 60, 16, 896⟩ = out at h ⊢
  cases h with
  | cons hR htail =>
    cases htail
    rw [hR.1 (by decide)]

end GridSpec
